import Mathlib

/-!
Verification of the amazon-music client against its specification.

The Python source is shallowly embedded: JSON payloads become the inductive
type JsonV (Python dict/list/str/int/bool/None), raised Python exceptions
become the PyError type carried in the Except monad, and network traffic is
modelled by scripted response lists or oracle functions, with a Nat counting
the calls (or cookie-store saves) actually issued.  Python integer and float
values are both modelled as Int; the only float-producing operation in the
embedded code (millisecond division by 1000) is modelled as integer division
and no claim depends on its rounding.
-/

/-- A JSON value as produced by json.loads in the Python client.  Python None
is JsonV.null, matching the fact that dict.get misses return None. -/
inductive JsonV where
  | null
  | bool (b : Bool)
  | num (n : Int)
  | str (s : String)
  | arr (items : List JsonV)
  | obj (fields : List (String × JsonV))
deriving Repr, BEq

/-- The Python exceptions raised by the embedded code.  keyError f models a
bare KeyError(f).  keyErrorWithPayload f p models a KeyError whose args were
rewritten by the client to the message "f not found in json.dumps(p)"; the
formatted string is kept symbolically as the (field, payload) pair.  exception
models the bare Exception class; its argument object is kept as a JsonV. -/
inductive PyError where
  | keyError (field : String)
  | keyErrorWithPayload (field : String) (payload : JsonV)
  | typeError (msg : String)
  | indexError (msg : String)
  | exception (args : JsonV)
deriving Repr, BEq

/-- True exactly for the bare Exception class (not KeyError and friends):
the only type-level discrimination a Python caller can perform. -/
def PyError.isBareException : PyError → Bool
  | .exception _ => true
  | _ => false

/-- True exactly for errors whose message embeds the offending JSON payload. -/
def PyError.echoesPayload : PyError → Bool
  | .keyErrorWithPayload _ _ => true
  | _ => false

/-- True for a KeyError whose args name only the missing field. -/
def PyError.isBareKeyError : PyError → Bool
  | .keyError _ => true
  | _ => false

/-- Python dict lookup d.get(k): the value if the key is present, else None. -/
def JsonV.get? (j : JsonV) (k : String) : Option JsonV :=
  match j with
  | .obj fields => fields.lookup k
  | _ => none

/-- Python d.get(k) with its None default. -/
def JsonV.get (j : JsonV) (k : String) : JsonV :=
  (j.get? k).getD .null

/-- Python d.get(k, default). -/
def JsonV.getD (j : JsonV) (k : String) (d : JsonV) : JsonV :=
  (j.get? k).getD d

/-- Python membership test: k in d. -/
def JsonV.member (j : JsonV) (k : String) : Bool :=
  (j.get? k).isSome

/-- Python indexing d[k]: raises KeyError(k) when the key is absent. -/
def JsonV.idx (j : JsonV) (k : String) : Except PyError JsonV :=
  match j.get? k with
  | some v => .ok v
  | none => .error (.keyError k)

/-- Python truthiness of a JSON value. -/
def JsonV.truthy : JsonV → Bool
  | .null => false
  | .bool b => b
  | .num n => n != 0
  | .str s => !s.isEmpty
  | .arr items => !items.isEmpty
  | .obj fields => !fields.isEmpty

/-- Python identity test "v is None". -/
def JsonV.isNull : JsonV → Bool
  | .null => true
  | _ => false

/-- Python equality "v == s" against a string literal: value equality when v
is a string, False for every other type. -/
def jsonEqStr (v : JsonV) (s : String) : Bool :=
  match v with
  | .str t => t == s
  | _ => false

/-- Python "a or b" where b may raise: returns a when a is truthy, else b. -/
def pyOrE (a : JsonV) (b : Except PyError JsonV) : Except PyError JsonV :=
  if a.truthy then .ok a else b

/-- Python "a or b" for two already-computed values. -/
def pyOr (a b : JsonV) : JsonV :=
  if a.truthy then a else b

/-- Iterating a Python value expected to be a list; anything else raises. -/
def JsonV.asArr : JsonV → Except PyError (List JsonV)
  | .arr items => .ok items
  | _ => .error (.typeError "object is not iterable")

/-- Python indexing l[0] on a list: IndexError when empty. -/
def JsonV.idx0 : JsonV → Except PyError JsonV
  | .arr (x :: _) => .ok x
  | .arr [] => .error (.indexError "list index out of range")
  | _ => .error (.typeError "object is not subscriptable")

/-- Python "v >= k" for an int bound: TypeError on non-numbers. -/
def jsonGEInt (v : JsonV) (k : Int) : Except PyError Bool :=
  match v with
  | .num n => .ok (decide (k ≤ n))
  | _ => .error (.typeError "unorderable types")

/-- Python "v / 1000" as used on the millisecond release date; the float
result is modelled as integer division (no claim depends on rounding). -/
def jsonDivNum (v : JsonV) (k : Int) : Except PyError JsonV :=
  match v with
  | .num n => .ok (.num (n / k))
  | _ => .error (.typeError "unsupported operand type for division")

/-! ## Track (src/amazon_music/internal/track.py) -/

/-- The fields the Track constructor sets on self. -/
structure TrackObj where
  json : JsonV
  name : JsonV
  artist : JsonV
  album : JsonV
  album_artist : JsonV
  cover_url : JsonV
  identifier_type : JsonV
  identifier : JsonV
  duration : JsonV
  _url : JsonV
deriving Repr, BEq

/-- The body of the try block in Track.__init__, line by line. -/
def trackInitInner (data : JsonV) : Except PyError TrackObj := do
  let name ← pyOrE (data.get "name") (data.idx "title")
  let artist ← pyOrE (data.get "artistName")
    (do let a ← data.idx "artist"; a.idx "name")
  let albumObj ← data.idx "album"
  let album := pyOr (albumObj.get "name") (albumObj.get "title")
  let album_artist :=
    pyOr (albumObj.get "artistName") (albumObj.getD "albumArtistName" artist)
  let cover_url :=
    if data.member "artUrlMap" then
      (data.get "artUrlMap").getD "FULL" ((data.get "artUrlMap").get "LARGE")
    else if albumObj.member "image" then albumObj.get "image"
    else JsonV.null
  let idPair ←
    if data.member "identifierType" then do
      let i ← data.idx "identifier"
      pure (data.get "identifierType", i)
    else do
      let i ← data.idx "asin"
      pure (JsonV.str "ASIN", i)
  let duration := data.getD "durationInSeconds" (data.get "duration")
  pure { json := data, name, artist, album, album_artist, cover_url,
         identifier_type := idPair.1, identifier := idPair.2, duration,
         _url := JsonV.null }

/-- The except KeyError handler: a KeyError e has its args rewritten to
"e.args[0] not found in json.dumps(data)"; other exception classes are not
caught and propagate unchanged. -/
def rewrapKeyError (data : JsonV) : PyError → PyError
  | .keyError f => .keyErrorWithPayload f data
  | .keyErrorWithPayload f _ => .keyErrorWithPayload f data
  | e => e

/-- Track.__init__: the try body with its KeyError rewrap. -/
def trackInit (data : JsonV) : Except PyError TrackObj :=
  match trackInitInner data with
  | .ok t => .ok t
  | .error e => .error (rewrapKeyError data e)

/-- Track.url.  The dmls call response is supplied as the oracle value resp;
the returned Nat counts the network calls issued by this invocation (the
memoized path issues none).  On success the memoized track object is returned
alongside the URL. -/
def trackUrl (self : TrackObj) (resp : JsonV) :
    (Except PyError (JsonV × TrackObj)) × Nat :=
  if self._url.isNull then
    let stream_json := resp
    if stream_json.member "statusCode"
        && jsonEqStr (stream_json.get "statusCode") "MAX_CONCURRENCY_REACHED" then
      (.error (.exception (stream_json.get "statusCode")), 1)
    else
      match (do
        let cr ← stream_json.idx "contentResponse"
        let ul ← cr.idx "urlList"
        ul.idx0) with
      | .ok u => (.ok (u, { self with _url := u }), 1)
      | .error e => (.error (rewrapKeyError stream_json e), 1)
  else
    (.ok (self._url, self), 0)

/-! ## Album (src/amazon_music/internal/album.py) -/

/-- The fields the Album constructor sets on self. -/
structure AlbumObj where
  json : JsonV
  id : JsonV
  cover_url : JsonV
  name : JsonV
  artist : JsonV
  genre : JsonV
  rating : JsonV
  track_count : JsonV
  release_date : JsonV
deriving Repr, BEq

/-- Album.__init__: the summary (metadata-wrapped) shape versus the full
shape, resolved by the presence of a metadata key.  Raised KeyErrors are not
caught here, so they propagate bare. -/
def albumInit (data : JsonV) : Except PyError AlbumObj :=
  if data.member "metadata" then do
    let track_count ← data.idx "numTracks"
    let md ← data.idx "metadata"
    let id ← md.idx "albumAsin"
    let cover_url := md.getD "albumCoverImageFull" (md.get "albumCoverImageMedium")
    let name ← md.idx "albumName"
    let artist ← md.idx "albumArtistName"
    let genre ← md.idx "primaryGenre"
    pure { json := md, id, cover_url, name, artist, genre,
           rating := JsonV.null, track_count, release_date := JsonV.null }
  else do
    let id ← data.idx "asin"
    let cover_url ← data.idx "image"
    let name ← data.idx "title"
    let artistObj ← data.idx "artist"
    let artist ← artistObj.idx "name"
    let pd ← data.idx "productDetails"
    let genre := pd.get "primaryGenreName"
    let reviews ← data.idx "reviews"
    let rating ← reviews.idx "average"
    let track_count ← data.idx "trackCount"
    let ord ← data.idx "originalReleaseDate"
    let release_date ← jsonDivNum ord 1000
    pure { json := data, id, cover_url, name, artist, genre,
           rating, track_count, release_date }

/-- The list comprehension building Track objects from a list of payloads. -/
def initTracks : List JsonV → Except PyError (List TrackObj)
  | [] => .ok []
  | t :: rest => do
    let tr ← trackInit t
    let trs ← initTracks rest
    .ok (tr :: trs)

/-- AmazonMusic.album: issues the muse lookup for one ASIN (the oracle fetch
maps the ASIN to the whole JSON response) and normalizes albumList[0]. -/
def amazonAlbum (fetch : JsonV → JsonV) (id : JsonV) : Except PyError AlbumObj := do
  let resp := fetch id
  let lst ← resp.idx "albumList"
  let first ← lst.idx0
  albumInit first

/-- Album.tracks.  When self.json has no tracks key, the full record is
re-fetched through AmazonMusic.album and __init__ is re-run in place on its
json; then Track objects are built from self.json["tracks"].  The returned
Nat counts the album re-fetches issued (0 or 1) and the returned AlbumObj is
the possibly re-initialized self. -/
def albumTracks (fetch : JsonV → JsonV) (self : AlbumObj) :
    Except PyError (AlbumObj × List TrackObj × Nat) :=
  if self.json.member "tracks" then do
    let ts ← self.json.idx "tracks"
    let items ← ts.asArr
    let trs ← initTracks items
    .ok (self, trs, 0)
  else do
    let a ← amazonAlbum fetch self.id
    let self2 ← albumInit a.json
    let ts ← self2.json.idx "tracks"
    let items ← ts.asArr
    let trs ← initTracks items
    .ok (self2, trs, 1)

/-! ## Playlist (src/amazon_music/internal/playlist.py) -/

/-- The fields the Playlist constructor sets on self. -/
structure PlaylistObj where
  json : JsonV
  id : JsonV
  cover_url : JsonV
  name : JsonV
  genre : JsonV
  rating : JsonV
  track_count : JsonV
deriving Repr, BEq

/-- Playlist.__init__: one fixed shape; KeyErrors propagate bare. -/
def playlistInit (data : JsonV) : Except PyError PlaylistObj := do
  let id ← data.idx "asin"
  let cover_url ← data.idx "image"
  let name ← data.idx "title"
  let genre ← data.idx "primaryGenre"
  let reviews ← data.idx "reviews"
  let rating ← reviews.idx "average"
  let track_count ← data.idx "trackCount"
  pure { json := data, id, cover_url, name, genre, rating, track_count }

/-! ## Station (src/amazon_music/internal/station.py) -/

/-- The fields the Station constructor sets on self. -/
structure StationObj where
  id : JsonV
  json : JsonV
  cover_url : JsonV
  name : JsonV
  _page_token : JsonV
deriving Repr, BEq

/-- Station.__init__: one fixed shape; KeyErrors propagate bare. -/
def stationInit (asin : JsonV) (data : JsonV) : Except PyError StationObj := do
  let q ← data.idx "queue"
  let qm ← q.idx "queueMetadata"
  let ium ← qm.idx "imageUrlMap"
  let cover_url ← ium.idx "FULL"
  let name ← qm.idx "title"
  let page_token ← q.idx "pageToken"
  pure { id := asin, json := data, cover_url, name, _page_token := page_token }

/-- The generator loop of Station.tracks.  The buffer is the local tracks
list; page_token is self._page_token; script holds the successive responses
of the getNextTracks calls, which are issued UNCONDITIONALLY whenever the
buffer empties after a yield (the source never tests the token).  The Nat
counts the getNextTracks calls issued; an exhausted script stands for the
upstream returning an empty final batch. -/
def stationLoop : List JsonV → JsonV → List JsonV →
    Except PyError (List TrackObj × Nat)
  | [], _, _ => .ok ([], 0)
  | t :: rest, page_token, script => do
    let tr ← trackInit t
    if rest.isEmpty then
      match script with
      | [] => do
        let (more, n) ← stationLoop [] JsonV.null []
        .ok (tr :: more, n + 1)
      | data :: srest => do
        let tok ← data.idx "nextPageToken"
        let tl ← data.idx "trackMetadataList"
        let items ← tl.asArr
        let (more, n) ← stationLoop items tok srest
        .ok (tr :: more, n + 1)
    else do
      let (more, n) ← stationLoop rest page_token script
      .ok (tr :: more, n)
termination_by buf _ script => (script.length, buf.length)

/-- Station.tracks: seeds the buffer from self.json["trackMetadataList"] and
runs the generator loop. -/
def stationTracks (self : StationObj) (script : List JsonV) :
    Except PyError (List TrackObj × Nat) := do
  let tl ← self.json.idx "trackMetadataList"
  let items ← tl.asArr
  stationLoop items self._page_token script

/-! ## Call invoker and session manager (src/amazon_music/__init__.py) -/

def AMAZON_MUSIC_SUBSCRIPTION : String := "MUSIC_SUBSCRIPTION"
def AMAZON_PRIME_SUBSCRIPTION : String := "PRIME"
def AMAZON_MUSIC_URL : String := "https://music.amazon.com"
def AMAZON_SIGN_IN_PATH : String := "/ap/signin"
def USER_AGENT : String :=
  "Mozilla/5.0 (X11; Ubuntu; Linux x86_64; rv:57.0) Gecko/20100101 Firefox/57.0"

def REGION_MAP : List (String × String) :=
  [("USAmazon", "NA"), ("EUAmazon", "EU"), ("FEAmazon", "FE")]

/-- The session fields AmazonMusic.__init__ sets on self (the requests
session and cookie jar live in the transport collaborator and are not
fields of this record). -/
structure AmazonMusicState where
  _amazon_subscription : String
  _email : Option String
  _password : Option String
  device_id : String
  csrf_token : String
  csrf_ts : String
  csrf_rnd : String
  customer_id : String
  device_type : String
  territory : String
  locale : String
  region : String
  url : String
deriving Repr, BEq, DecidableEq

/-- The request body: query sent as a flat form (legacy cirrus) or
JSON-encoded (kept symbolically rather than as a dumped string). -/
inductive CallBody where
  | form (query : JsonV)
  | jsonEncoded (query : JsonV)
deriving Repr, BEq

/-- The POST request AmazonMusic.call assembles. -/
structure HttpRequest where
  url : String
  headers : List (String × String)
  body : CallBody
deriving Repr, BEq

/-- A requests response: r.json() either decodes or raises. -/
structure PyResponse where
  jsonResult : Except PyError JsonV

/-- The request AmazonMusic.call builds from endpoint, target and query. -/
def callRequest (s : AmazonMusicState) (endpoint : String)
    (target : Option String) (query : JsonV) : HttpRequest :=
  let query_headers := [("User-Agent", USER_AGENT),
    ("csrf-token", s.csrf_token), ("csrf-rnd", s.csrf_rnd),
    ("csrf-ts", s.csrf_ts), ("X-Requested-With", "XMLHttpRequest")]
  match target with
  | none =>
    { url := s.url ++ "/" ++ s.region ++ "/api/" ++ endpoint,
      headers := query_headers, body := .form query }
  | some t =>
    { url := s.url ++ "/" ++ s.region ++ "/api/" ++ endpoint,
      headers := query_headers ++ [("X-Amz-Target", t),
        ("Content-Type", "application/json"), ("Content-Encoding", "amz-1.0")],
      body := .jsonEncoded query }

/-- AmazonMusic.call.  The transport oracle either returns a response or
raises (network error).  The Nat counts the cookie-store saves executed:
the source runs session.cookies.save() after the post returns and before
r.json() is decoded, and has no handler around the post, so a raising post
skips the save. -/
def amazonCall (s : AmazonMusicState) (endpoint : String)
    (target : Option String) (query : JsonV)
    (transport : HttpRequest → Except PyError PyResponse) :
    (Except PyError JsonV) × Nat :=
  match transport (callRequest s endpoint target query) with
  | .error e => (.error e, 0)
  | .ok r => (r.jsonResult, 1)

/-- One entry of a response's redirect history. -/
structure HistEntry where
  status_code : Nat
  location : String
deriving Repr, BEq, DecidableEq

/-- The parsed amznMusic.appConfig blob, with the keys the constructor
reads (the line scan over the HTML body and json.loads are abstracted into
this already-parsed record carried by the scripted response). -/
structure AppConfig where
  deviceId : String
  csrf_token : String
  csrf_ts : String
  csrf_rnd : String
  customerId : String
  deviceType : String
  musicTerritory : String
  locale : String
  realm : String
  returnUrlServer : String
  isRecognizedCustomer : Int
deriving Repr, BEq, DecidableEq

/-- A scripted response in the authentication flow: its redirect history
and the appConfig found by scanning its body lines (none when no line
carries the blob). -/
structure AuthResponse where
  history : List HistEntry
  appConfig : Option AppConfig
deriving Repr, BEq, DecidableEq

/-- Contiguous sublist test on character lists. -/
def charsContain : List Char → List Char → Bool
  | needle, [] => needle.isEmpty
  | needle, c :: t => needle.isPrefixOf (c :: t) || charsContain needle t

/-- Substring test, for AMAZON_SIGN_IN_PATH in h.headers["Location"]. -/
def strContains (hay needle : String) : Bool :=
  charsContain needle.toList hay.toList

/-- The guard of the inner authentication loop: r.history truthy and some
history entry is a 302 whose Location contains the sign-in path. -/
def responseBounced (r : AuthResponse) : Bool :=
  (!r.history.isEmpty) && r.history.any
    (fun h => h.status_code == 302 && strContains h.location AMAZON_SIGN_IN_PATH)

/-- The message of the exception raised when no appConfig line is found. -/
def captchaMsg : JsonV :=
  .str "Amazon Music `appConfig` could not be found (you may have triggered the captcha)"

/-- The nested config/authentication loops of AmazonMusic.__init__.
While the current response keeps bouncing through the sign-in redirect, one
_authenticate form submission is consumed from the script (its form
scraping and post are the transport collaborator); once a response stops
bouncing, its body is scanned for appConfig, failing with the captcha
exception when none is present; an unrecognized customer triggers the
forceSignIn get, consuming one more scripted response and scanning again.
Returns the parsed config and the number of _authenticate submissions. -/
def sessionLoop : List AuthResponse → AuthResponse → Nat →
    Except PyError (AppConfig × Nat)
  | script, r, submits =>
    if responseBounced r then
      match script with
      | [] => .error (.exception (.str "scripted responses exhausted"))
      | r2 :: rest => sessionLoop rest r2 (submits + 1)
    else
      match r.appConfig with
      | none => .error (.exception captchaMsg)
      | some cfg =>
        if cfg.isRecognizedCustomer == 0 then
          match script with
          | [] => .error (.exception (.str "scripted responses exhausted"))
          | r2 :: rest => sessionLoop rest r2 submits
        else .ok (cfg, submits)
termination_by script _ _ => script.length

/-- The Ready session state built from a parsed config (lines 122-141 of
the source): credentials zeroed, fields copied from the config, region
looked up in REGION_MAP with the first-two-characters fallback, url from
the returnUrlServer. -/
def readyState (cfg : AppConfig) (prime : Bool) : AmazonMusicState :=
  { _amazon_subscription :=
      if prime then AMAZON_PRIME_SUBSCRIPTION else AMAZON_MUSIC_SUBSCRIPTION,
    _email := none,
    _password := none,
    device_id := cfg.deviceId,
    csrf_token := cfg.csrf_token,
    csrf_ts := cfg.csrf_ts,
    csrf_rnd := cfg.csrf_rnd,
    customer_id := cfg.customerId,
    device_type := cfg.deviceType,
    territory := cfg.musicTerritory,
    locale := cfg.locale,
    region := (REGION_MAP.lookup cfg.realm).getD (cfg.realm.take 2),
    url := "https://" ++ cfg.returnUrlServer }

/-- AmazonMusic.__init__ as a whole: r0 is the response of the initial get
on the region-cookie URL; the credentials are held transiently (they are
merged into each submitted sign-in form by _authenticate, which the script
abstracts) and zeroed before any field of the returned state is populated.
Returns the constructed state and the number of authentication
submissions. -/
def amazonMusicInit (_email _password : Option String) (prime : Bool)
    (r0 : AuthResponse) (script : List AuthResponse) :
    Except PyError (AmazonMusicState × Nat) :=
  match sessionLoop script r0 0 with
  | .error e => .error e
  | .ok (cfg, submits) => .ok (readyState cfg prime, submits)

/-! ## Library album pagination (AmazonMusic.albums_in_library) -/

/-- The post-fetch library filter:
r["numTracks"] >= 4 and r["metadata"].get("primeStatus") == "PRIME",
with Python short-circuiting (metadata is not touched when the track count
is below four). -/
def libFilterPasses (r : JsonV) : Except PyError Bool := do
  let nt ← r.idx "numTracks"
  let ge ← jsonGEInt nt 4
  if ge then do
    let md ← r.idx "metadata"
    pure (jsonEqStr (md.get "primeStatus") "PRIME")
  else
    pure false

/-- The searchLibraryResult dict of an empty final page, standing for the
upstream response once a script is exhausted. -/
def emptyLibraryResult : JsonV :=
  .obj [("nextResultsToken", JsonV.null), ("searchReturnItemList", .arr [])]

/-- Unwraps one cirrus response to its searchLibraryResult dict. -/
def libUnwrap (resp : JsonV) : Except PyError JsonV := do
  let slr ← resp.idx "searchLibraryResponse"
  slr.idx "searchLibraryResult"

/-- The generator loop of albums_in_library.  The buffer is the local
results list; data is the current searchLibraryResult dict (only its
nextResultsToken is consulted, lazily, when the buffer drains); script holds
the responses of the successive continuation calls.  Each popped item is
filtered and, when passing, normalized through Album.__init__; when the
buffer drains, data["nextResultsToken"] is read and, if truthy, the next
page is fetched and appended.  The Nat counts the continuation fetches
issued beyond the call that produced the initial page. -/
def libraryLoop : List JsonV → JsonV → List JsonV →
    Except PyError (List AlbumObj × Nat)
  | [], _, _ => .ok ([], 0)
  | r :: rest, data, script => do
    let keep ← libFilterPasses r
    let out ← if keep then (do let a ← albumInit r; pure [a]) else pure []
    if rest.isEmpty then do
      let tokv ← data.idx "nextResultsToken"
      if tokv.truthy then
        match script with
        | [] => do
          let (more, n) ← libraryLoop [] emptyLibraryResult []
          .ok (out ++ more, n + 1)
        | resp :: srest => do
          let data2 ← libUnwrap resp
          let il ← data2.idx "searchReturnItemList"
          let items ← il.asArr
          let (more, n) ← libraryLoop items data2 srest
          .ok (out ++ more, n + 1)
      else
        .ok (out, 0)
    else do
      let (more, n) ← libraryLoop rest data script
      .ok (out ++ more, n)
termination_by buf _ script => (script.length, buf.length)

/-- albums_in_library: the first cirrus response resp0 seeds the loop with
its item list; script holds the responses of the continuation calls. -/
def albumsInLibrary (resp0 : JsonV) (script : List JsonV) :
    Except PyError (List AlbumObj × Nat) := do
  let data ← libUnwrap resp0
  let il ← data.idx "searchReturnItemList"
  let items ← il.asArr
  libraryLoop items data script

/-- Builds a cirrus searchLibrary response carrying the given item list and
continuation token. -/
def mkLibResp (items : List JsonV) (tok : JsonV) : JsonV :=
  .obj [("searchLibraryResponse",
    .obj [("searchLibraryResult",
      .obj [("nextResultsToken", tok), ("searchReturnItemList", .arr items)])])]

/-- Normalizing a list of album payloads in order, stopping at the first
failure: the reference behaviour pagination is compared against. -/
def initAlbums : List JsonV → Except PyError (List AlbumObj)
  | [] => .ok []
  | r :: rest => do
    let a ← albumInit r
    let as ← initAlbums rest
    .ok (a :: as)

/-! ## Specification-side reference definitions -/

/-- Draining one buffer without ever fetching: the reference behaviour the
library loop must match whenever the continuation token is falsy. -/
def drainNoFetch : List JsonV → Except PyError (List AlbumObj)
  | [] => .ok []
  | r :: rest => do
    let keep ← libFilterPasses r
    let out ← if keep then (do let a ← albumInit r; pure [a]) else pure []
    let more ← drainNoFetch rest
    .ok (out ++ more)

/-- A computation avoids an error shape when every error it can return
falsifies the given predicate. -/
def ErrorsAvoid (p : PyError → Bool) {α : Type} (x : Except PyError α) : Prop :=
  ∀ e, x = .error e → p e = false

/-! ## Concrete fixtures -/

/-- A minimal track payload accepted by Track.__init__. -/
def trackPayload1 : JsonV :=
  .obj [("title", .str "T"), ("artistName", .str "A"),
        ("album", .obj []), ("asin", .str "B0")]

/-- The Track object Track.__init__ builds from trackPayload1. -/
def trackObj1 : TrackObj :=
  { json := trackPayload1, name := .str "T", artist := .str "A",
    album := .null, album_artist := .str "A", cover_url := .null,
    identifier_type := .str "ASIN", identifier := .str "B0",
    duration := .null, _url := .null }

/-- A getNextTracks response with an empty batch and a null token. -/
def emptyNextResp : JsonV :=
  .obj [("nextPageToken", JsonV.null), ("trackMetadataList", .arr [])]

/-- A fully populated session state for exercising call. -/
def sessionState0 : AmazonMusicState :=
  { _amazon_subscription := AMAZON_PRIME_SUBSCRIPTION, _email := none,
    _password := none, device_id := "D", csrf_token := "tok",
    csrf_ts := "ts", csrf_rnd := "rnd", customer_id := "C",
    device_type := "DT", territory := "US", locale := "en_US",
    region := "NA", url := "https://music.amazon.com" }

/-- A transport whose post raises a connection error. -/
def failingTransport : HttpRequest → Except PyError PyResponse :=
  fun _ => .error (.exception (.str "ConnectionError"))

/-- A transport whose post returns a decodable response. -/
def okTransport : HttpRequest → Except PyError PyResponse :=
  fun _ => .ok { jsonResult := .ok (JsonV.obj []) }

/-- A track payload whose album key is absent. -/
def trackMissingAlbum : JsonV :=
  .obj [("title", .str "T"), ("artistName", .str "A"), ("asin", .str "B0")]

/-- A full-shape album payload whose title key is absent. -/
def albumFullMissingTitle : JsonV :=
  .obj [("asin", .str "B1"), ("image", .str "I")]

/-- A library search item with the given ASIN, passing the library filter. -/
def libItem (i : String) : JsonV :=
  .obj [("numTracks", .num 5),
        ("metadata", .obj [("primeStatus", .str "PRIME"),
          ("albumAsin", .str i), ("albumName", .str ("N" ++ i)),
          ("albumArtistName", .str "AA"), ("primaryGenre", .str "Rock")])]

/-- A parsed appConfig for a recognized US customer. -/
def cfg0 : AppConfig :=
  { deviceId := "D", csrf_token := "t", csrf_ts := "ts", csrf_rnd := "r",
    customerId := "C", deviceType := "DT", musicTerritory := "US",
    locale := "en_US", realm := "USAmazon", returnUrlServer := "music.amazon.com",
    isRecognizedCustomer := 1 }

/-- A response bounced through the sign-in redirect. -/
def authRespBounce : AuthResponse :=
  { history := [{ status_code := 302, location := "/ap/signin" }],
    appConfig := none }

/-- A non-redirecting response carrying the recognized appConfig. -/
def authRespReady : AuthResponse :=
  { history := [], appConfig := some cfg0 }

/-- A non-redirecting response with no appConfig line (captcha page). -/
def authRespNoConfig : AuthResponse :=
  { history := [], appConfig := none }

/-- A summary-shape album payload with the given field values. -/
def albumSummaryPayload (i n a g c : String) (nt : Int) : JsonV :=
  .obj [("numTracks", .num nt),
        ("metadata", .obj [("albumAsin", .str i),
          ("albumCoverImageFull", .str c), ("albumName", .str n),
          ("albumArtistName", .str a), ("primaryGenre", .str g)])]

/-- A full-shape album payload with the given field values. -/
def albumFullPayload (i n a g c : String) (rating tc rd : Int) : JsonV :=
  .obj [("asin", .str i), ("image", .str c), ("title", .str n),
        ("artist", .obj [("name", .str a)]),
        ("productDetails", .obj [("primaryGenreName", .str g)]),
        ("reviews", .obj [("average", .num rating)]),
        ("trackCount", .num tc), ("originalReleaseDate", .num rd)]

/-- The Album object built from the summary payload with ASIN B1. -/
def summaryAlbumObj : AlbumObj :=
  { json := .obj [("albumAsin", .str "B1"), ("albumCoverImageFull", .str "C"),
      ("albumName", .str "N"), ("albumArtistName", .str "A"),
      ("primaryGenre", .str "G")],
    id := .str "B1", cover_url := .str "C", name := .str "N",
    artist := .str "A", genre := .str "G", rating := .null,
    track_count := .num 5, release_date := .null }

/-- A full muse album record carrying its track list. -/
def fullAlbumRecord : JsonV :=
  .obj [("asin", .str "B1"), ("image", .str "I"), ("title", .str "N"),
        ("artist", .obj [("name", .str "A")]), ("productDetails", .obj []),
        ("reviews", .obj [("average", .num 4)]), ("trackCount", .num 1),
        ("originalReleaseDate", .num 1000), ("tracks", .arr [trackPayload1])]

/-- The muse lookup response wrapping fullAlbumRecord. -/
def albumLookupResp : JsonV := .obj [("albumList", .arr [fullAlbumRecord])]

/-- The lookup oracle returning albumLookupResp for every ASIN. -/
def albumFetch0 : JsonV → JsonV := fun _ => albumLookupResp

/-- The Album object built from fullAlbumRecord. -/
def fullAlbumObj : AlbumObj :=
  { json := fullAlbumRecord, id := .str "B1", cover_url := .str "I",
    name := .str "N", artist := .str "A", genre := .null, rating := .num 4,
    track_count := .num 1, release_date := .num 1 }

/-- A dmls stream response reporting the concurrency cap. -/
def streamRespLimited : JsonV :=
  .obj [("statusCode", .str "MAX_CONCURRENCY_REACHED")]

/-- A track payload whose name and artistName keys hold empty strings. -/
def trackC10Payload : JsonV :=
  .obj [("name", .str ""), ("title", .str "TT"), ("artistName", .str ""),
        ("artist", .obj [("name", .str "AN")]), ("album", .obj []),
        ("asin", .str "B9")]

/-- The Track object Track.__init__ builds from trackC10Payload. -/
def trackC10Obj : TrackObj :=
  { json := trackC10Payload, name := .str "TT", artist := .str "AN",
    album := .null, album_artist := .str "AN", cover_url := .null,
    identifier_type := .str "ASIN", identifier := .str "B9",
    duration := .null, _url := .null }

/-! ## Helper lemmas -/

@[simp] theorem exbind_ok {α β : Type} (a : α) (f : α → Except PyError β) :
    (Except.ok a >>= f) = f a := rfl

@[simp] theorem exbind_error {α β : Type} (e : PyError) (f : α → Except PyError β) :
    ((Except.error e : Except PyError α) >>= f) = Except.error e := rfl

@[simp] theorem exmap_ok {α β : Type} (a : α) (g : α → β) :
    ((Except.ok a : Except PyError α).map g) = Except.ok (g a) := rfl

@[simp] theorem exmap_error {α β : Type} (e : PyError) (g : α → β) :
    ((Except.error e : Except PyError α).map g) = Except.error e := rfl

theorem member_of_idx_ok {j : JsonV} {k : String} {v : JsonV}
    (h : j.idx k = .ok v) : j.member k = true := by
  unfold JsonV.idx at h
  cases hg : j.get? k with
  | none => rw [hg] at h; simp at h
  | some w => simp [JsonV.member, hg]

theorem stationLoop_nil (tok : JsonV) (script : List JsonV) :
    stationLoop [] tok script = .ok ([], 0) := by
  rw [stationLoop.eq_def]

theorem libraryLoop_nil (data : JsonV) (script : List JsonV) :
    libraryLoop [] data script = .ok ([], 0) := by
  rw [libraryLoop.eq_def]

/-- With a falsy continuation token the library loop only drains its buffer:
it never touches the script and issues zero fetches. -/
theorem libraryLoop_token_falsy (data tokv : JsonV)
    (hidx : data.idx "nextResultsToken" = .ok tokv) (htok : tokv.truthy = false) :
    ∀ (buf script : List JsonV),
      libraryLoop buf data script = (drainNoFetch buf).map (fun as => (as, 0)) := by
  intro buf
  induction buf with
  | nil =>
    intro script
    rw [libraryLoop_nil]
    rfl
  | cons r rest ih =>
    intro script
    conv_lhs => rw [libraryLoop.eq_def]
    rw [drainNoFetch]
    cases hk : libFilterPasses r with
    | error e => simp [hk]
    | ok keep =>
      cases keep with
      | false =>
        cases rest with
        | nil => simp [hk, hidx, htok, drainNoFetch]
        | cons r2 rest2 =>
          simp only [hk, exbind_ok, Bool.false_eq_true, if_false,
            List.isEmpty_cons, ih]
          cases hd : drainNoFetch (r2 :: rest2) with
          | error e => simp
          | ok as => simp
      | true =>
        cases ha : albumInit r with
        | error e =>
          cases rest with
          | nil => simp [hk, ha]
          | cons r2 rest2 => simp [hk, ha]
        | ok a =>
          cases rest with
          | nil => simp [hk, ha, hidx, htok, drainNoFetch]
          | cons r2 rest2 =>
            simp only [hk, ha, exbind_ok, if_true, List.isEmpty_cons,
              Bool.false_eq_true, if_false, ih]
            cases hd : drainNoFetch (r2 :: rest2) with
            | error e => simp
            | ok as => simp

theorem initAlbums_append (xs ys : List JsonV) :
    initAlbums (xs ++ ys) = (do
      let as ← initAlbums xs
      let bs ← initAlbums ys
      Except.ok (as ++ bs)) := by
  induction xs with
  | nil =>
    simp [initAlbums]
    cases initAlbums ys with
    | error e => simp
    | ok bs => simp
  | cons x xs ih =>
    simp only [List.cons_append, initAlbums, List.append_eq]
    rw [ih]
    cases albumInit x with
    | error e => simp
    | ok a =>
      simp only [exbind_ok]
      cases initAlbums xs with
      | error e => simp
      | ok as =>
        simp only [exbind_ok]
        cases initAlbums ys with
        | error e => simp
        | ok bs => simp

theorem drainNoFetch_all_pass (l : List JsonV)
    (hp : ∀ r ∈ l, libFilterPasses r = .ok true) :
    drainNoFetch l = initAlbums l := by
  induction l with
  | nil => rfl
  | cons r rest ih =>
    have hr : libFilterPasses r = .ok true := hp r (List.mem_cons_self r rest)
    have ihr : drainNoFetch rest = initAlbums rest :=
      ih (fun x hx => hp x (List.mem_cons_of_mem r hx))
    simp only [drainNoFetch, initAlbums, hr, exbind_ok, if_true, ihr]
    cases albumInit r with
    | error e => simp
    | ok a =>
      simp only [exbind_ok]
      cases initAlbums rest with
      | error e => simp
      | ok as => simp

/-- With a truthy continuation token and a nonempty buffer the library loop
drains the buffer in order, then fetches exactly the next scripted page and
continues from it. -/
theorem libraryLoop_drain_fetch (data tokv : JsonV)
    (hidx : data.idx "nextResultsToken" = .ok tokv) (htok : tokv.truthy = true) :
    ∀ (buf : List JsonV), buf ≠ [] → ∀ (resp : JsonV) (srest : List JsonV),
      libraryLoop buf data (resp :: srest) = (do
        let as ← drainNoFetch buf
        let data2 ← libUnwrap resp
        let il ← data2.idx "searchReturnItemList"
        let items ← il.asArr
        let p ← libraryLoop items data2 srest
        Except.ok (as ++ p.1, p.2 + 1)) := by
  intro buf
  induction buf with
  | nil => intro h; exact absurd rfl h
  | cons r rest ih =>
    intro _ resp srest
    conv_lhs => rw [libraryLoop.eq_def]
    rw [drainNoFetch]
    cases hk : libFilterPasses r with
    | error e => simp [hk]
    | ok keep =>
      cases keep with
      | false =>
        cases rest with
        | nil =>
          simp only [hk, exbind_ok, Bool.false_eq_true, if_false,
            List.isEmpty_nil, if_true, hidx, htok, drainNoFetch]
          cases libUnwrap resp with
          | error e => simp
          | ok data2 =>
            simp only [exbind_ok]
            cases data2.idx "searchReturnItemList" with
            | error e => simp
            | ok il =>
              simp only [exbind_ok]
              cases il.asArr with
              | error e => simp
              | ok items =>
                simp only [exbind_ok]
                cases libraryLoop items data2 srest with
                | error e => simp
                | ok p => simp
        | cons r2 rest2 =>
          simp only [hk, exbind_ok, Bool.false_eq_true, if_false,
            List.isEmpty_cons, ih (by simp) resp srest]
          cases drainNoFetch (r2 :: rest2) with
          | error e => simp
          | ok as =>
            simp only [exbind_ok]
            cases libUnwrap resp with
            | error e => simp
            | ok data2 =>
              simp only [exbind_ok]
              cases data2.idx "searchReturnItemList" with
              | error e => simp
              | ok il =>
                simp only [exbind_ok]
                cases il.asArr with
                | error e => simp
                | ok items =>
                  simp only [exbind_ok]
                  cases libraryLoop items data2 srest with
                  | error e => simp
                  | ok p => simp
      | true =>
        cases ha : albumInit r with
        | error e =>
          cases rest with
          | nil => simp [hk, ha]
          | cons r2 rest2 => simp [hk, ha]
        | ok a =>
          cases rest with
          | nil =>
            simp only [hk, ha, exbind_ok, if_true, List.isEmpty_nil,
              hidx, htok, drainNoFetch]
            cases libUnwrap resp with
            | error e => simp
            | ok data2 =>
              simp only [exbind_ok]
              cases data2.idx "searchReturnItemList" with
              | error e => simp
              | ok il =>
                simp only [exbind_ok]
                cases il.asArr with
                | error e => simp
                | ok items =>
                  simp only [exbind_ok]
                  cases libraryLoop items data2 srest with
                  | error e => simp
                  | ok p => simp
          | cons r2 rest2 =>
            simp only [hk, ha, exbind_ok, if_true, List.isEmpty_cons,
              Bool.false_eq_true, if_false, ih (by simp) resp srest]
            cases drainNoFetch (r2 :: rest2) with
            | error e => simp
            | ok as =>
              simp only [exbind_ok]
              cases libUnwrap resp with
              | error e => simp
              | ok data2 =>
                simp only [exbind_ok]
                cases data2.idx "searchReturnItemList" with
                | error e => simp
                | ok il =>
                  simp only [exbind_ok]
                  cases il.asArr with
                  | error e => simp
                  | ok items =>
                    simp only [exbind_ok]
                    cases libraryLoop items data2 srest with
                    | error e => simp
                    | ok p => simp

theorem errorsAvoid_bind {p : PyError → Bool} {α β : Type} {x : Except PyError α}
    {f : α → Except PyError β} (hx : ErrorsAvoid p x) (hf : ∀ a, ErrorsAvoid p (f a)) :
    ErrorsAvoid p (x >>= f) := by
  intro e h
  cases hx2 : x with
  | error e2 =>
    rw [hx2, exbind_error] at h
    injection h with h2
    rw [← h2]
    exact hx e2 hx2
  | ok a =>
    rw [hx2, exbind_ok] at h
    exact hf a e h

theorem errorsAvoid_ok {p : PyError → Bool} {α : Type} (a : α) :
    ErrorsAvoid p (Except.ok a) := by
  intro e h
  simp at h

theorem idx_error_shape {j : JsonV} {k : String} {e : PyError}
    (h : j.idx k = .error e) : e = .keyError k := by
  unfold JsonV.idx at h
  cases hg : j.get? k with
  | some v => rw [hg] at h; simp at h
  | none => rw [hg] at h; injection h with h2; exact h2.symm

theorem echoAvoid_idx (j : JsonV) (k : String) :
    ErrorsAvoid PyError.echoesPayload (j.idx k) := by
  intro e h
  rw [idx_error_shape h]
  rfl

theorem echoAvoid_divNum (v : JsonV) (k : Int) :
    ErrorsAvoid PyError.echoesPayload (jsonDivNum v k) := by
  intro e h
  unfold jsonDivNum at h
  cases v <;> simp at h <;> rw [← h] <;> rfl

/-- Every failure of Album.__init__ is a bare error that does not echo the
offending payload (the album constructor has no KeyError handler). -/
theorem albumInit_no_echo (d : JsonV) :
    ErrorsAvoid PyError.echoesPayload (albumInit d) := by
  unfold albumInit
  split
  · refine errorsAvoid_bind (echoAvoid_idx _ _) (fun tc => ?_)
    refine errorsAvoid_bind (echoAvoid_idx _ _) (fun md => ?_)
    refine errorsAvoid_bind (echoAvoid_idx _ _) (fun i => ?_)
    refine errorsAvoid_bind (echoAvoid_idx _ _) (fun nm => ?_)
    refine errorsAvoid_bind (echoAvoid_idx _ _) (fun ar => ?_)
    refine errorsAvoid_bind (echoAvoid_idx _ _) (fun ge => ?_)
    exact errorsAvoid_ok _
  · refine errorsAvoid_bind (echoAvoid_idx _ _) (fun i => ?_)
    refine errorsAvoid_bind (echoAvoid_idx _ _) (fun cv => ?_)
    refine errorsAvoid_bind (echoAvoid_idx _ _) (fun nm => ?_)
    refine errorsAvoid_bind (echoAvoid_idx _ _) (fun ao => ?_)
    refine errorsAvoid_bind (echoAvoid_idx _ _) (fun ar => ?_)
    refine errorsAvoid_bind (echoAvoid_idx _ _) (fun pd => ?_)
    refine errorsAvoid_bind (echoAvoid_idx _ _) (fun rv => ?_)
    refine errorsAvoid_bind (echoAvoid_idx _ _) (fun rt => ?_)
    refine errorsAvoid_bind (echoAvoid_idx _ _) (fun tc => ?_)
    refine errorsAvoid_bind (echoAvoid_idx _ _) (fun od => ?_)
    refine errorsAvoid_bind (echoAvoid_divNum _ _) (fun rd => ?_)
    exact errorsAvoid_ok _

/-- Every failure of Playlist.__init__ is bare: no payload echo. -/
theorem playlistInit_no_echo (d : JsonV) :
    ErrorsAvoid PyError.echoesPayload (playlistInit d) := by
  unfold playlistInit
  refine errorsAvoid_bind (echoAvoid_idx _ _) (fun i => ?_)
  refine errorsAvoid_bind (echoAvoid_idx _ _) (fun cv => ?_)
  refine errorsAvoid_bind (echoAvoid_idx _ _) (fun nm => ?_)
  refine errorsAvoid_bind (echoAvoid_idx _ _) (fun ge => ?_)
  refine errorsAvoid_bind (echoAvoid_idx _ _) (fun rv => ?_)
  refine errorsAvoid_bind (echoAvoid_idx _ _) (fun rt => ?_)
  refine errorsAvoid_bind (echoAvoid_idx _ _) (fun tc => ?_)
  exact errorsAvoid_ok _

/-- Every failure of Station.__init__ is bare: no payload echo. -/
theorem stationInit_no_echo (a d : JsonV) :
    ErrorsAvoid PyError.echoesPayload (stationInit a d) := by
  unfold stationInit
  refine errorsAvoid_bind (echoAvoid_idx _ _) (fun q => ?_)
  refine errorsAvoid_bind (echoAvoid_idx _ _) (fun qm => ?_)
  refine errorsAvoid_bind (echoAvoid_idx _ _) (fun im => ?_)
  refine errorsAvoid_bind (echoAvoid_idx _ _) (fun cv => ?_)
  refine errorsAvoid_bind (echoAvoid_idx _ _) (fun nm => ?_)
  refine errorsAvoid_bind (echoAvoid_idx _ _) (fun pt => ?_)
  exact errorsAvoid_ok _

/-- Track.__init__ never lets a bare KeyError escape: its handler rewraps
every KeyError with the offending payload. -/
theorem trackInit_no_bare_keyError (d : JsonV) (e : PyError)
    (h : trackInit d = .error e) : e.isBareKeyError = false := by
  unfold trackInit at h
  cases hi : trackInitInner d with
  | ok t => rw [hi] at h; simp at h
  | error e2 =>
    rw [hi] at h
    injection h with h2
    rw [← h2]
    cases e2 <;> rfl

/-! ## Claim theorems -/

/-- Claim C1 (counterexample to the claim as stated).  The claim demands
that no fetch be issued from a state with an empty buffer and a null cursor.
Here the station iterator starts from a one-element buffer and a NULL page
token; after yielding the single track the buffer is empty and the cursor is
null, yet the iterator still issues a getNextTracks call (it consumes the
scripted response and the fetch counter is 1), because Station.tracks never
tests the token before fetching. -/
theorem claim_C1_counterexample :
    stationLoop [trackPayload1] JsonV.null [emptyNextResp] = .ok ([trackObj1], 1) := by
  conv_lhs => rw [stationLoop.eq_def]
  show (do
    let p ← stationLoop [] JsonV.null []
    Except.ok (trackObj1 :: p.1, p.2 + 1)) = .ok ([trackObj1], 1)
  rw [stationLoop_nil]
  rfl

/-- Claim C1 (amended).  Both iterators consume their buffered batch in
order.  The library instantiation honours the cursor: with a falsy
nextResultsToken it only drains its buffer and issues zero fetches (first
conjunct), and with a truthy token it drains the buffer and then issues
exactly one fetch of the next page and continues from it (second conjunct).
The station instantiation ignores its cursor: whenever the buffer empties
after a yield it fetches unconditionally, for every page token value
including null (third conjunct, at a concrete one-track queue). -/
theorem claim_C1_paginator_amended :
    (∀ (data tokv : JsonV), data.idx "nextResultsToken" = .ok tokv →
      tokv.truthy = false → ∀ (buf script : List JsonV),
        libraryLoop buf data script = (drainNoFetch buf).map (fun as => (as, 0)))
    ∧ (∀ (data tokv : JsonV), data.idx "nextResultsToken" = .ok tokv →
      tokv.truthy = true → ∀ (buf : List JsonV), buf ≠ [] →
      ∀ (resp : JsonV) (srest : List JsonV),
        libraryLoop buf data (resp :: srest) = (do
          let as ← drainNoFetch buf
          let data2 ← libUnwrap resp
          let il ← data2.idx "searchReturnItemList"
          let items ← il.asArr
          let p ← libraryLoop items data2 srest
          Except.ok (as ++ p.1, p.2 + 1)))
    ∧ (∀ page_token : JsonV,
        stationLoop [trackPayload1] page_token [emptyNextResp] = .ok ([trackObj1], 1)) := by
  refine ⟨fun data tokv hidx htok => libraryLoop_token_falsy data tokv hidx htok,
    fun data tokv hidx htok => libraryLoop_drain_fetch data tokv hidx htok, ?_⟩
  intro page_token
  conv_lhs => rw [stationLoop.eq_def]
  show (do
    let p ← stationLoop [] JsonV.null []
    Except.ok (trackObj1 :: p.1, p.2 + 1)) = .ok ([trackObj1], 1)
  rw [stationLoop_nil]
  rfl

/-- Claim C1 witness: the library loop at a concrete page whose token is
null drains its one-item buffer and issues zero fetches even though a
scripted page is available. -/
theorem claim_C1_witness :
    libraryLoop [libItem "A"]
      (.obj [("nextResultsToken", JsonV.null), ("searchReturnItemList", .arr [libItem "A"])])
      [mkLibResp [] JsonV.null] =
    (drainNoFetch [libItem "A"]).map (fun as => (as, 0)) :=
  claim_C1_paginator_amended.1
    (.obj [("nextResultsToken", JsonV.null), ("searchReturnItemList", .arr [libItem "A"])])
    JsonV.null rfl rfl [libItem "A"] [mkLibResp [] JsonV.null]

/-- Claim C2 (counterexample to the claim as stated).  The claim demands
that the cookie store be saved after every call, also when the network step
errors.  Here the transport raises a connection error and the call returns
having executed ZERO cookie-store saves: the source has no handler around
session.post, so the save after it is skipped. -/
theorem claim_C2_counterexample :
    amazonCall sessionState0 "cirrus/" none (JsonV.obj []) failingTransport =
      (.error (.exception (.str "ConnectionError")), 0) := rfl

/-- Claim C2 (amended).  The cookie store is saved exactly when the POST
returns a response: a raising transport propagates its error unchanged with
zero saves executed, while any returned response (whatever its JSON decode
outcome) is followed by exactly one save. -/
theorem claim_C2_cookie_save_amended : ∀ (s : AmazonMusicState) (endpoint : String)
    (target : Option String) (query : JsonV)
    (transport : HttpRequest → Except PyError PyResponse),
    (∀ err, transport (callRequest s endpoint target query) = .error err →
      amazonCall s endpoint target query transport = (.error err, 0))
    ∧ (∀ r, transport (callRequest s endpoint target query) = .ok r →
      amazonCall s endpoint target query transport = (r.jsonResult, 1)) := by
  intro s endpoint target query transport
  constructor
  · intro err h
    unfold amazonCall
    rw [h]
  · intro r h
    unfold amazonCall
    rw [h]

/-- Claim C2 witness: a returning transport yields the decoded body and
exactly one cookie-store save. -/
theorem claim_C2_witness :
    amazonCall sessionState0 "cirrus/" none (JsonV.obj []) okTransport =
      ((Except.ok (JsonV.obj []) : Except PyError JsonV), 1) :=
  (claim_C2_cookie_save_amended sessionState0 "cirrus/" none (JsonV.obj []) okTransport).2
    { jsonResult := .ok (JsonV.obj []) } rfl

/-- Claim C3 (counterexample to the claim as stated).  The claim demands
that EVERY normalizer (Track, Album, Playlist, Station) fail on a missing
required field with an error naming the field AND echoing the offending
JSON payload.  A full-shape album payload missing its title fails with the
bare KeyError naming only the field: Album.__init__ has no handler that
attaches the payload, so the error does not echo it. -/
theorem claim_C3_counterexample :
    albumInit albumFullMissingTitle = .error (.keyError "title")
    ∧ PyError.echoesPayload (.keyError "title") = false := ⟨rfl, rfl⟩

/-- Claim C3 (amended).  Missing required fields are never silently
defaulted: each normalizer raises a KeyError naming the missing field.  But
only Track.__init__ rewraps the error with the offending payload (it never
lets a bare KeyError escape); Album, Playlist and Station propagate the bare
KeyError without echoing the payload.  The last four conjuncts exhibit the
behaviour concretely: a track payload missing album gives the
payload-echoing error, while album, playlist and station payloads missing a
required field give bare field-naming KeyErrors. -/
theorem claim_C3_schema_mismatch_amended :
    (∀ d e, trackInit d = .error e → e.isBareKeyError = false)
    ∧ (∀ d e, albumInit d = .error e → e.echoesPayload = false)
    ∧ (∀ d e, playlistInit d = .error e → e.echoesPayload = false)
    ∧ (∀ a d e, stationInit a d = .error e → e.echoesPayload = false)
    ∧ trackInit trackMissingAlbum = .error (.keyErrorWithPayload "album" trackMissingAlbum)
    ∧ albumInit albumFullMissingTitle = .error (.keyError "title")
    ∧ playlistInit (JsonV.obj []) = .error (.keyError "asin")
    ∧ stationInit (.str "S") (JsonV.obj []) = .error (.keyError "queue") := by
  refine ⟨trackInit_no_bare_keyError, ?_, ?_, ?_, rfl, rfl, rfl, rfl⟩
  · exact fun d e h => albumInit_no_echo d e h
  · exact fun d e h => playlistInit_no_echo d e h
  · exact fun a d e h => stationInit_no_echo a d e h

/-- Claim C3 witness: the error Track raises for a payload missing album is
not a bare KeyError (it carries the payload). -/
theorem claim_C3_witness :
    PyError.isBareKeyError (.keyErrorWithPayload "album" trackMissingAlbum) = false :=
  claim_C3_schema_mismatch_amended.1 trackMissingAlbum
    (.keyErrorWithPayload "album" trackMissingAlbum) rfl

/-- Claim C4: two-page library pagination.  For any first page of items with
a truthy continuation token and any second page with a null token, when
every item passes the library filter, consuming the iterator yields exactly
the normalization of the concatenated pages in upstream order (each item
exactly once, never reordered or deduplicated) and issues exactly one fetch
beyond the call that produced the first page. -/
theorem claim_C4_library_pagination (items1 items2 : List JsonV) (tok1 : JsonV)
    (hne : items1 ≠ []) (htok : tok1.truthy = true)
    (hp1 : ∀ r ∈ items1, libFilterPasses r = .ok true)
    (hp2 : ∀ r ∈ items2, libFilterPasses r = .ok true) :
    albumsInLibrary (mkLibResp items1 tok1) [mkLibResp items2 JsonV.null] =
      (initAlbums (items1 ++ items2)).map (fun as => (as, 1)) := by
  have h1 : drainNoFetch items1 = initAlbums items1 := drainNoFetch_all_pass items1 hp1
  have h2 : drainNoFetch items2 = initAlbums items2 := drainNoFetch_all_pass items2 hp2
  have hfetch := libraryLoop_drain_fetch
    (.obj [("nextResultsToken", tok1), ("searchReturnItemList", .arr items1)]) tok1
    rfl htok items1 hne (mkLibResp items2 JsonV.null) []
  have hfalsy := libraryLoop_token_falsy
    (.obj [("nextResultsToken", JsonV.null), ("searchReturnItemList", .arr items2)])
    JsonV.null rfl rfl items2 []
  show libraryLoop items1
      (.obj [("nextResultsToken", tok1), ("searchReturnItemList", .arr items1)])
      [mkLibResp items2 JsonV.null] =
    (initAlbums (items1 ++ items2)).map (fun as => (as, 1))
  rw [hfetch, h1]
  rw [show (libUnwrap (mkLibResp items2 JsonV.null)) = Except.ok
    (.obj [("nextResultsToken", JsonV.null), ("searchReturnItemList", .arr items2)]) from rfl]
  simp only [exbind_ok]
  rw [show ((JsonV.obj [("nextResultsToken", JsonV.null),
      ("searchReturnItemList", .arr items2)]).idx "searchReturnItemList") =
    Except.ok (.arr items2) from rfl]
  simp only [exbind_ok, JsonV.asArr]
  rw [hfalsy, h2, initAlbums_append]
  cases initAlbums items1 with
  | error e => simp
  | ok as =>
    simp only [exbind_ok]
    cases initAlbums items2 with
    | error e => simp
    | ok bs => simp

/-- Claim C4 witness: a concrete run over pages [A,B,C] (token T1) and
[D,E] (token null) of filter-passing items. -/
theorem claim_C4_witness :
    albumsInLibrary (mkLibResp [libItem "A", libItem "B", libItem "C"] (.str "T1"))
      [mkLibResp [libItem "D", libItem "E"] JsonV.null] =
    (initAlbums ([libItem "A", libItem "B", libItem "C"] ++ [libItem "D", libItem "E"])).map
      (fun as => (as, 1)) :=
  claim_C4_library_pagination [libItem "A", libItem "B", libItem "C"]
    [libItem "D", libItem "E"] (.str "T1")
    (by simp) rfl
    (by
      intro r hr
      simp only [List.mem_cons, List.not_mem_nil, or_false] at hr
      rcases hr with rfl | rfl | rfl <;> rfl)
    (by
      intro r hr
      simp only [List.mem_cons, List.not_mem_nil, or_false] at hr
      rcases hr with rfl | rfl <;> rfl)

/-- Claim C5: for any two consecutive responses whose redirect history
contains a sign-in redirect, followed by a non-redirecting response whose
body carries the configuration blob for a recognized customer, session
construction reaches the Ready state (all fields populated from the config)
after exactly two authentication form submissions. -/
theorem claim_C5_auth_state_machine : ∀ (email password : Option String) (prime : Bool)
    (r1 r2 r3 : AuthResponse) (cfg : AppConfig),
    responseBounced r1 = true → responseBounced r2 = true →
    r3.history = [] → r3.appConfig = some cfg → cfg.isRecognizedCustomer ≠ 0 →
    amazonMusicInit email password prime r1 [r2, r3] = .ok (readyState cfg prime, 2) := by
  intro email password prime r1 r2 r3 cfg h1 h2 h3 hc hrec
  have hb3 : responseBounced r3 = false := by
    unfold responseBounced
    rw [h3]
    rfl
  have hbeq : (cfg.isRecognizedCustomer == 0) = false := by
    simp [hrec]
  unfold amazonMusicInit
  rw [sessionLoop.eq_def]
  simp only [h1, if_true]
  rw [sessionLoop.eq_def]
  simp only [h2, if_true]
  rw [sessionLoop.eq_def]
  simp only [hb3, Bool.false_eq_true, if_false, hc, hbeq]

/-- Claim C5 witness: a concrete script of two sign-in bounces followed by
the recognized-config page reaches Ready after two submissions. -/
theorem claim_C5_witness :
    amazonMusicInit (some "user@example.com") (some "pw") true authRespBounce
      [authRespBounce, authRespReady] = .ok (readyState cfg0 true, 2) :=
  claim_C5_auth_state_machine (some "user@example.com") (some "pw") true authRespBounce
    authRespBounce authRespReady cfg0 rfl rfl rfl rfl (by decide)

/-- Claim C6: normalizing an album from the summary (metadata-wrapped)
shape or from the full shape with equivalent field values yields identical
canonical id, name, artist and genre; and the summary shape always yields
rating = None and release_date = None. -/
theorem claim_C6_album_shape_equivalence : ∀ (i n a g c c2 : String) (nt rv tc rd : Int),
    ((albumInit (albumSummaryPayload i n a g c nt)).map AlbumObj.id =
      (albumInit (albumFullPayload i n a g c2 rv tc rd)).map AlbumObj.id)
    ∧ ((albumInit (albumSummaryPayload i n a g c nt)).map AlbumObj.name =
      (albumInit (albumFullPayload i n a g c2 rv tc rd)).map AlbumObj.name)
    ∧ ((albumInit (albumSummaryPayload i n a g c nt)).map AlbumObj.artist =
      (albumInit (albumFullPayload i n a g c2 rv tc rd)).map AlbumObj.artist)
    ∧ ((albumInit (albumSummaryPayload i n a g c nt)).map AlbumObj.genre =
      (albumInit (albumFullPayload i n a g c2 rv tc rd)).map AlbumObj.genre)
    ∧ ((albumInit (albumSummaryPayload i n a g c nt)).map AlbumObj.rating =
      .ok JsonV.null)
    ∧ ((albumInit (albumSummaryPayload i n a g c nt)).map AlbumObj.release_date =
      .ok JsonV.null) :=
  fun _ _ _ _ _ _ _ _ _ _ => ⟨rfl, rfl, rfl, rfl, rfl, rfl⟩

/-- Claim C7: for an Album whose json lacks a tracks key, a successful
tracks() call issues exactly one re-fetch and reinitializes the object in
place; calling tracks() again on the returned (upgraded) object yields the
same track list with zero further re-fetches. -/
theorem claim_C7_album_lazy_upgrade : ∀ (fetch : JsonV → JsonV) (s s2 : AlbumObj)
    (trs : List TrackObj) (n : Nat),
    s.json.member "tracks" = false →
    albumTracks fetch s = .ok (s2, trs, n) →
    n = 1 ∧ albumTracks fetch s2 = .ok (s2, trs, 0) := by
  intro fetch s s2 trs n hm h
  unfold albumTracks at h
  rw [hm] at h
  simp only [Bool.false_eq_true, if_false] at h
  cases h1 : amazonAlbum fetch s.id with
  | error e => rw [h1] at h; simp at h
  | ok a =>
    rw [h1, exbind_ok] at h
    cases h2 : albumInit a.json with
    | error e => rw [h2] at h; simp at h
    | ok self2 =>
      rw [h2, exbind_ok] at h
      cases h3 : self2.json.idx "tracks" with
      | error e => rw [h3] at h; simp at h
      | ok ts =>
        rw [h3, exbind_ok] at h
        cases h4 : ts.asArr with
        | error e => rw [h4] at h; simp at h
        | ok items =>
          rw [h4, exbind_ok] at h
          cases h5 : initTracks items with
          | error e => rw [h5] at h; simp at h
          | ok trs2 =>
            rw [h5, exbind_ok] at h
            injection h with h6
            obtain ⟨hself, htrs, hn⟩ : self2 = s2 ∧ trs2 = trs ∧ (1 : Nat) = n := by
              have h7 := congrArg Prod.fst h6
              have h8 := congrArg (fun q => q.2.1) h6
              have h9 := congrArg (fun q => q.2.2) h6
              exact ⟨h7, h8, h9⟩
            subst hself
            subst htrs
            refine ⟨hn.symm, ?_⟩
            unfold albumTracks
            rw [member_of_idx_ok h3]
            simp only [if_true]
            rw [h3, exbind_ok, h4, exbind_ok, h5, exbind_ok]

/-- Claim C7 witness: a concrete summary album is upgraded by one fetch of
the full record, and the upgraded object answers again without fetching. -/
theorem claim_C7_witness :
    (1 : Nat) = 1 ∧ albumTracks albumFetch0 fullAlbumObj = .ok (fullAlbumObj, [trackObj1], 0) :=
  claim_C7_album_lazy_upgrade albumFetch0 summaryAlbumObj fullAlbumObj [trackObj1] 1 rfl rfl

/-- Claim C8: every successful session construction returns a state whose
stored email and password fields are erased (None): the plaintext
credentials are not retrievable from the returned object. -/
theorem claim_C8_credential_erasure : ∀ (email password : Option String) (prime : Bool)
    (r0 : AuthResponse) (script : List AuthResponse)
    (st : AmazonMusicState) (n : Nat),
    amazonMusicInit email password prime r0 script = .ok (st, n) →
    st._password = none ∧ st._email = none := by
  intro email password prime r0 script st n h
  unfold amazonMusicInit at h
  cases hs : sessionLoop script r0 0 with
  | error e => rw [hs] at h; simp at h
  | ok p =>
    obtain ⟨cfg, submits⟩ := p
    rw [hs] at h
    injection h with h2
    have h3 : readyState cfg prime = st := congrArg Prod.fst h2
    rw [← h3]
    exact ⟨rfl, rfl⟩

/-- Claim C8 witness: a concrete successful construction ends with both
credential fields erased. -/
theorem claim_C8_witness :
    (readyState cfg0 true)._password = none ∧ (readyState cfg0 true)._email = none :=
  claim_C8_credential_erasure (some "user@example.com") (some "hunter2") true authRespReady []
    (readyState cfg0 true) 0
    (by
      unfold amazonMusicInit
      rw [sessionLoop.eq_def]
      rfl)

/-- Claim C9 (counterexample to the claim as stated).  The claim demands a
distinct UpstreamConcurrencyLimit error recognizable without parsing a
generic error.  The source raises raise Exception(statusCode): the SAME bare
Exception class also used for the generic captcha failure in session
construction, as the last three conjuncts show — a caller can only tell the
two apart by parsing the argument string, so the error is not distinct by
type. -/
theorem claim_C9_counterexample :
    trackUrl trackObj1 streamRespLimited =
      (.error (.exception (.str "MAX_CONCURRENCY_REACHED")), 1)
    ∧ PyError.isBareException (.exception (.str "MAX_CONCURRENCY_REACHED")) = true
    ∧ sessionLoop [] authRespNoConfig 0 = .error (.exception captchaMsg)
    ∧ PyError.isBareException (.exception captchaMsg) = true := by
  refine ⟨rfl, rfl, ?_, rfl⟩
  rw [sessionLoop.eq_def]
  rfl

/-- Claim C9 (amended).  When a stream-URL request with no memoized URL
reports the concurrent-stream cap, the client raises a generic bare
Exception whose argument is the literal status string
MAX_CONCURRENCY_REACHED (recognizable only by that message, not by a
distinct type), after issuing exactly one call and without retrying it. -/
theorem claim_C9_concurrency_limit_amended : ∀ (tr : TrackObj) (resp : JsonV),
    tr._url = JsonV.null →
    resp.member "statusCode" = true →
    resp.get "statusCode" = JsonV.str "MAX_CONCURRENCY_REACHED" →
    trackUrl tr resp = (.error (.exception (.str "MAX_CONCURRENCY_REACHED")), 1)
    ∧ PyError.isBareException (.exception (.str "MAX_CONCURRENCY_REACHED")) = true := by
  intro tr resp hu hm hs
  refine ⟨?_, rfl⟩
  unfold trackUrl
  rw [hu]
  simp only [JsonV.isNull, if_true]
  simp [hm, hs, jsonEqStr]

/-- Claim C9 witness: the concrete concurrency-capped response raises the
generic exception after exactly one call. -/
theorem claim_C9_witness :
    trackUrl trackObj1 streamRespLimited =
      (.error (.exception (.str "MAX_CONCURRENCY_REACHED")), 1)
    ∧ PyError.isBareException (.exception (.str "MAX_CONCURRENCY_REACHED")) = true :=
  claim_C9_concurrency_limit_amended trackObj1 streamRespLimited rfl rfl rfl

/-- Claim C10: Track name and artist resolution falls back on falsiness,
not only on key absence: when the name key is present but holds an empty
string and a title key is present, the normalized name is the title value;
analogously an empty artistName falls back to the nested artist.name. -/
theorem claim_C10_falsiness_fallback : ∀ (data t art an : JsonV) (tr : TrackObj),
    data.get? "name" = some (JsonV.str "") →
    data.get? "title" = some t →
    data.get? "artistName" = some (JsonV.str "") →
    data.get? "artist" = some art →
    art.get? "name" = some an →
    trackInit data = .ok tr →
    tr.name = t ∧ tr.artist = an := by
  intro data t art an tr hn ht ha hart han h
  unfold trackInit at h
  cases hi : trackInitInner data with
  | error e => rw [hi] at h; simp at h
  | ok t2 =>
    rw [hi] at h
    injection h with h2
    subst h2
    unfold trackInitInner at hi
    have hgn : data.get "name" = JsonV.str "" := by
      unfold JsonV.get
      rw [hn]
      rfl
    have hga : data.get "artistName" = JsonV.str "" := by
      unfold JsonV.get
      rw [ha]
      rfl
    have e1 : pyOrE (data.get "name") (data.idx "title") = .ok t := by
      unfold pyOrE
      rw [hgn, show (JsonV.str "").truthy = false from rfl]
      simp [JsonV.idx, ht]
    have e2 : pyOrE (data.get "artistName")
        (do let a ← data.idx "artist"; a.idx "name") = .ok an := by
      unfold pyOrE
      rw [hga, show (JsonV.str "").truthy = false from rfl]
      simp [JsonV.idx, hart, han]
    rw [e1, exbind_ok, e2, exbind_ok] at hi
    cases hA : data.idx "album" with
    | error e => rw [hA] at hi; simp at hi
    | ok albumObj =>
      rw [hA, exbind_ok] at hi
      cases hmem : data.member "identifierType" with
      | true =>
        rw [hmem] at hi
        simp only [if_true] at hi
        cases hid : data.idx "identifier" with
        | error e => rw [hid] at hi; simp at hi
        | ok i =>
          rw [hid, exbind_ok] at hi
          injection hi with h3
          rw [← h3]
          exact ⟨rfl, rfl⟩
      | false =>
        rw [hmem] at hi
        simp only [Bool.false_eq_true, if_false] at hi
        cases hid : data.idx "asin" with
        | error e => rw [hid] at hi; simp at hi
        | ok i =>
          rw [hid, exbind_ok] at hi
          injection hi with h3
          rw [← h3]
          exact ⟨rfl, rfl⟩

/-- Claim C10 witness: a concrete payload with empty name and artistName
normalizes to the title and nested artist name. -/
theorem claim_C10_witness :
    trackC10Obj.name = .str "TT" ∧ trackC10Obj.artist = .str "AN" :=
  claim_C10_falsiness_fallback trackC10Payload (.str "TT") (.obj [("name", .str "AN")])
    (.str "AN") trackC10Obj rfl rfl rfl rfl rfl rfl
